import Mathlib

/-!
Shallow embedding of `pibooth_ledstrip.py` (BwanaFr/pibooth-ledstrip).

The source is a pibooth plugin driving a WS2801 LED strip from a background
thread.  We embed:

* `LedState`    — the `LedState` enum (phases).
* `LedBlinker`  — the button blinker sub-state-machine.
* `LedsWS2801`  — the controller thread's mutable state (`self.*` fields),
  extended with an observation log (`trace`) of device operations and a
  `status` marking whether the thread is still running, has returned
  (Terminate) or has died on an uncaught exception (e.g. `IndexError`).
* `tick`        — one iteration of the inner `while True:` loop of
  `LedsWS2801.run` (lines 144-254 of the source).

Numeric model: Python floats are modelled as exact rationals (`ℚ`), Python
ints as `ℤ`.  `random.random()` / `random.randint(50, 100)` are modelled by
oracle streams carried in the state.  Pixel access mirrors the adafruit
buffer semantics: negative indices wrap once by the length, out-of-range
access raises (modelled as `none`, which the controller turns into the
`crashed` status, as an uncaught exception kills the thread).
-/

/-- An (R, G, B) triple; each channel is a Python int. -/
abbrev RGB := Int × Int × Int

/-- The `LedState` enum of the source (state of LED). -/
inductive LedState
  | RECONFIGURE
  | WAIT
  | WAIT_OR_PRINT
  | CHOOSE
  | CHOSEN
  | PREVIEW
  | CAPTURE
  | PROCESSING
  | PRINT
  | FINISH
  | FAILSAFE
  | TERMINATE
deriving DecidableEq, Repr

/-- Device-adapter operations observed by the hardware (buffer writes, fills
and flushes).  `showBuf` records the buffer contents sent on `show()`. -/
inductive DevOp
  | set (i : Int) (c : RGB)
  | fill (c : RGB)
  | showBuf (buf : List RGB)
deriving DecidableEq, Repr

/-- Whether the controller thread is alive, has returned, or has died on an
uncaught exception. -/
inductive RunStatus
  | running
  | terminated
  | crashed
deriving DecidableEq, Repr

/-- The `LedBlinker` class: a two-phase (on/off) timer producing a color for
one button pixel.  `color_on`/`color_off` start as Python `None`. -/
structure LedBlinker where
  time_off : ℚ := 1/2
  time_on : ℚ := 1/2
  color_on : Option RGB := none
  color_off : Option RGB := none
  is_on : Bool := false
  elapsed : ℚ := 0
  enabled : Bool := false
deriving DecidableEq, Repr

/-- `LedBlinker.animate(lastRefresh=0.01)`: advance the blinker by one tick;
returns the `changed` flag and the updated blinker. -/
def LedBlinker.animate (b : LedBlinker) (lastRefresh : ℚ := 1/100) :
    Bool × LedBlinker :=
  if b.enabled then
    let e := b.elapsed + lastRefresh
    if b.is_on then
      if e ≥ b.time_on then (true, { b with is_on := false, elapsed := 0 })
      else (false, { b with elapsed := e })
    else
      if e ≥ b.time_off then (true, { b with is_on := true, elapsed := 0 })
      else (false, { b with elapsed := e })
  else (false, b)

/-- `LedBlinker.get_color()`: `(0,0,0)` when disabled, otherwise the on/off
color (which may still be Python `None` if never set). -/
def LedBlinker.get_color (b : LedBlinker) : Option RGB :=
  if ¬ b.enabled then some (0, 0, 0)
  else if b.is_on then b.color_on
  else b.color_off

/-- `LedBlinker.set_time_on`. -/
def LedBlinker.set_time_on (b : LedBlinker) (time : ℚ) : LedBlinker :=
  { b with time_on := time }

/-- `LedBlinker.set_time_off`. -/
def LedBlinker.set_time_off (b : LedBlinker) (time : ℚ) : LedBlinker :=
  { b with time_off := time }

/-- `LedBlinker.set_color_on`. -/
def LedBlinker.set_color_on (b : LedBlinker) (color : RGB) : LedBlinker :=
  { b with color_on := some color }

/-- `LedBlinker.set_color_off`. -/
def LedBlinker.set_color_off (b : LedBlinker) (color : RGB) : LedBlinker :=
  { b with color_off := some color }

/-- `LedBlinker.set_enabled`. -/
def LedBlinker.set_enabled (b : LedBlinker) (enabled : Bool) : LedBlinker :=
  { b with enabled := enabled }

/-- `LedBlinker.reset`. -/
def LedBlinker.reset (b : LedBlinker) : LedBlinker :=
  { b with elapsed := 0, is_on := false }

/-- Read `buf[i]` with adafruit/Python semantics: a negative index wraps once
by the length; an out-of-range index raises (`none`). -/
def stripGet (buf : List RGB) (i : Int) : Option RGB :=
  let n : Int := buf.length
  let j := if i < 0 then i + n else i
  if 0 ≤ j ∧ j < n then buf.get? j.toNat else none

/-- Write `buf[i] = c` with the same index semantics as `stripGet`. -/
def stripSet (buf : List RGB) (i : Int) (c : RGB) : Option (List RGB) :=
  let n : Int := buf.length
  let j := if i < 0 then i + n else i
  if 0 ≤ j ∧ j < n then some (buf.set j.toNat c) else none

/-- Python `int()` applied to a rational: truncation toward zero. -/
def pyint (q : ℚ) : ℤ :=
  if 0 ≤ q then ⌊q⌋ else -⌊-q⌋

/-- Python 3 `round()` applied to a rational: round half to even. -/
def pyround (q : ℚ) : ℤ :=
  let f := ⌊q⌋
  let r := q - (f : ℚ)
  if r < 1/2 then f
  else if 1/2 < r then f + 1
  else if f % 2 = 0 then f else f + 1

/-- CPython `colorsys.hsv_to_rgb`, over exact rationals. -/
def hsv_to_rgb (h s v : ℚ) : ℚ × ℚ × ℚ :=
  if s = 0 then (v, v, v)
  else
    let i0 := pyint (h * 6)
    let f := h * 6 - (i0 : ℚ)
    let p := v * (1 - s)
    let q := v * (1 - s * f)
    let t := v * (1 - s * (1 - f))
    let i := i0 % 6
    if i = 0 then (v, t, p)
    else if i = 1 then (q, v, p)
    else if i = 2 then (p, v, t)
    else if i = 3 then (p, q, v)
    else if i = 4 then (t, p, v)
    else (v, p, q)

/-- `LedsWS2801.hsv(h, s=1.0, v=1.0)`: hue to RGB with channels rounded to
0..255 (`round(i * 255)`). -/
def hsv (h : ℚ) (s : ℚ := 1) (v : ℚ := 1) : RGB :=
  let c := hsv_to_rgb h s v
  (pyround (c.1 * 255), pyround (c.2.1 * 255), pyround (c.2.2 * 255))

/-- The controller thread state: the `self.*` fields of `LedsWS2801`, plus
the `adafruit` import flag, the `capture_nbr` payload the host hook attaches
for the Chosen phase, oracle streams for the `random` module, the device
operation log and the thread status. -/
structure LedsWS2801 where
  state_queue : List LedState := []
  leds : Option (List RGB) := none
  spi_index : Int := -1
  led_count : Int := -1
  left_btn_led : Int := -1
  right_btn_led : Int := -1
  actual_state : Option LedState := none
  hue_value : ℚ := 0
  delay : Int := 0
  left_btn_blinker : LedBlinker := {}
  right_btn_blinker : LedBlinker := {}
  capture_nbr : Nat := 0
  adafruit : Bool := true
  rngF : Nat → ℚ := fun _ => 0
  rngFIdx : Nat := 0
  rngI : Nat → Int := fun _ => 50
  rngIIdx : Nat := 0
  status : RunStatus := .running
  trace : List DevOp := []

/-- The loop body of `animate_wait`: `for i in range(self.led_count):
self.leds[i] = self.hsv(random.random(), s=(random.randint(50,100)/100),
v=random.random())`.  Consumes two floats and one int from the oracle
streams per pixel, in argument-evaluation order (h, s, v). -/
def waitFillLoop (rngF : Nat → ℚ) (rngI : Nat → Int) :
    Nat → Nat → Nat → Nat → List RGB → List DevOp →
    Option (List RGB × List DevOp × Nat × Nat)
  | _, 0, fIdx, iIdx, buf, ops => some (buf, ops, fIdx, iIdx)
  | i, r + 1, fIdx, iIdx, buf, ops =>
    let h := rngF fIdx
    let sat : ℚ := (rngI iIdx : ℚ) / 100
    let v := rngF (fIdx + 1)
    let c := hsv h sat v
    match stripSet buf i c with
    | none => none
    | some buf1 =>
      waitFillLoop rngF rngI (i + 1) r (fIdx + 2) (iIdx + 1) buf1
        (ops ++ [DevOp.set i c])

/-- `LedsWS2801.animate_wait`. -/
def animate_wait (s : LedsWS2801) (changed : Bool) :
    Option (LedsWS2801 × Bool) :=
  match s.leds with
  | none => none
  | some buf =>
    let s := if changed then { s with delay := 0 } else s
    let s := { s with delay := s.delay + 1 }
    if s.delay > (10 : Int) then
      match waitFillLoop s.rngF s.rngI 0 s.led_count.toNat s.rngFIdx
          s.rngIIdx buf [] with
      | none => none
      | some (buf1, ops, fIdx, iIdx) =>
        some ({ s with delay := 0, leds := some buf1, rngFIdx := fIdx,
                       rngIIdx := iIdx, trace := s.trace ++ ops }, true)
    else some (s, false)

/-- The hue update at the end of `animate_choose`:
`self.hue_value = self.hue_value + 0.01; if self.hue_value > 1.0:
self.hue_value = 0.0`. -/
def choose_hue_step (h : ℚ) : ℚ :=
  let h1 := h + 1/100
  if h1 > 1 then 0 else h1

/-- The loop body of `animate_choose`: `for i in range(self.led_count):
self.leds[i] = self.hsv(self.hue_value + (i/self.led_count))`. -/
def chooseFillLoop (hue : ℚ) (led_count : Int) :
    Nat → Nat → List RGB → List DevOp → Option (List RGB × List DevOp)
  | _, 0, buf, ops => some (buf, ops)
  | i, r + 1, buf, ops =>
    let c := hsv (hue + (i : ℚ) / (led_count : ℚ))
    match stripSet buf i c with
    | none => none
    | some buf1 => chooseFillLoop hue led_count (i + 1) r buf1
        (ops ++ [DevOp.set i c])

/-- `LedsWS2801.animate_choose`. -/
def animate_choose (s : LedsWS2801) (_changed : Bool) :
    Option (LedsWS2801 × Bool) :=
  match s.leds with
  | none => none
  | some buf =>
    match chooseFillLoop s.hue_value s.led_count 0 s.led_count.toNat buf [] with
    | none => none
    | some (buf1, ops) =>
      some ({ s with leds := some buf1, trace := s.trace ++ ops,
                     hue_value := choose_hue_step s.hue_value }, true)

/-- `self.leds.fill(c)`: the adafruit `fill` writes every pixel. -/
def ledsFill (buf : List RGB) (c : RGB) : List RGB :=
  buf.map fun _ => c

/-- `LedsWS2801.animate_chosen`: fill with
`hsv(self.actual_state.capture_nbr/4+0.5)`. -/
def animate_chosen (s : LedsWS2801) (_changed : Bool) :
    Option (LedsWS2801 × Bool) :=
  match s.leds with
  | none => none
  | some buf =>
    let c := hsv ((s.capture_nbr : ℚ) / 4 + 1/2)
    some ({ s with leds := some (ledsFill buf c),
                   trace := s.trace ++ [DevOp.fill c] }, true)

/-- `LedsWS2801.animate_preview`: fill white. -/
def animate_preview (s : LedsWS2801) (_changed : Bool) :
    Option (LedsWS2801 × Bool) :=
  match s.leds with
  | none => none
  | some buf =>
    some ({ s with leds := some (ledsFill buf (0xFF, 0xFF, 0xFF)),
                   trace := s.trace ++ [DevOp.fill (0xFF, 0xFF, 0xFF)] }, true)

/-- `LedsWS2801.animate_capture`. -/
def animate_capture (s : LedsWS2801) (changed : Bool) :
    Option (LedsWS2801 × Bool) :=
  match s.leds with
  | none => none
  | some buf =>
    let s := if changed then { s with delay := 0 } else s
    let s := { s with delay := s.delay + 1 }
    if s.delay > (4 : Int) then
      some ({ s with leds := some (ledsFill buf (0xFF, 0xFF, 0xFF)),
                     trace := s.trace ++ [DevOp.fill (0xFF, 0xFF, 0xFF)] }, true)
    else
      some ({ s with leds := some (ledsFill buf (0, 0, 0)),
                     trace := s.trace ++ [DevOp.fill (0, 0, 0)] }, true)

/-- The number of iterations of Python `range(0, stop, 3)` for a
non-negative `stop`: the count of multiples of 3 below `stop` (a structural
ceiling of `stop / 3`). -/
def range3Len : Nat → Nat
  | 0 => 0
  | 1 => 1
  | 2 => 1
  | n + 3 => range3Len n + 1

/-- The paint loop of `animate_processing`:
`for i in range(0, self.led_count-2, 3):` paint pixels `i, i+1, i+2` with
red, green, blue.  The first argument is the number of iterations of the
range object `range(0, led_count-2, 3)`; the second is the running
index `i`. -/
def processingPaintLoop : Nat → Nat → List RGB → List DevOp →
    Option (List RGB × List DevOp)
  | 0, _, buf, ops => some (buf, ops)
  | r + 1, i, buf, ops =>
    match stripSet buf i (0xFF, 0, 0) with
    | none => none
    | some b1 =>
      match stripSet b1 ((i : Int) + 1) (0, 0xFF, 0) with
      | none => none
      | some b2 =>
        match stripSet b2 ((i : Int) + 2) (0, 0, 0xFF) with
        | none => none
        | some b3 =>
          processingPaintLoop r (i + 3) b3
            (ops ++ [DevOp.set i (0xFF, 0, 0), DevOp.set ((i : Int) + 1) (0, 0xFF, 0),
                     DevOp.set ((i : Int) + 2) (0, 0, 0xFF)])

/-- The shift loop shared by `animate_processing` and `animate_print`:
`for i in range(0, self.led_count-1): self.leds[i] = self.leds[i+1]`. -/
def shiftLoop : Nat → Nat → List RGB → List DevOp →
    Option (List RGB × List DevOp)
  | _, 0, buf, ops => some (buf, ops)
  | i, r + 1, buf, ops =>
    match stripGet buf ((i : Int) + 1) with
    | none => none
    | some c =>
      match stripSet buf i c with
      | none => none
      | some b1 => shiftLoop (i + 1) r b1 (ops ++ [DevOp.set i c])

/-- The rotate step of `animate_processing`/`animate_print`:
`first = self.leds[0]`, shift left, `self.leds[-1] = first`. -/
def rotateStep (led_count : Int) (buf : List RGB) :
    Option (List RGB × List DevOp) :=
  match stripGet buf 0 with
  | none => none
  | some first =>
    match shiftLoop 0 (led_count - 1).toNat buf [] with
    | none => none
    | some (b1, ops) =>
      match stripSet b1 (-1) first with
      | none => none
      | some b2 => some (b2, ops ++ [DevOp.set (-1) first])

/-- `LedsWS2801.animate_processing`.  The `painted` triple carries the
delay counter, emitted device writes and buffer after the optional
`changed` repaint. -/
def animate_processing (s : LedsWS2801) (changed : Bool) :
    Option (LedsWS2801 × Bool) :=
  match s.leds with
  | none => none
  | some buf =>
    let painted : Option (Int × List DevOp × List RGB) :=
      if changed then
        match processingPaintLoop (range3Len (s.led_count - 2).toNat) 0 buf [] with
        | none => none
        | some (b1, ops) => some (0, ops, b1)
      else some (s.delay, [], buf)
    match painted with
    | none => none
    | some (d0, ops0, buf) =>
      let d1 := d0 + 1
      if d1 > (50 : Int) then
        match rotateStep s.led_count buf with
        | none => none
        | some (b2, ops) =>
          some ({ s with delay := 0, leds := some b2,
                         trace := s.trace ++ ops0 ++ ops }, true)
      else some ({ s with delay := d1, leds := some buf,
                          trace := s.trace ++ ops0 }, false)

/-- The paint loop of `animate_print`: `for i in range(0, self.led_count, 3):
self.leds[i] = (0xFF, 0xFF, 0xFF)`.  The first argument is the number of
iterations of `range(0, led_count, 3)`. -/
def printPaintLoop : Nat → Nat → List RGB → List DevOp →
    Option (List RGB × List DevOp)
  | 0, _, buf, ops => some (buf, ops)
  | r + 1, i, buf, ops =>
    match stripSet buf i (0xFF, 0xFF, 0xFF) with
    | none => none
    | some b1 =>
      printPaintLoop r (i + 3) b1 (ops ++ [DevOp.set i (0xFF, 0xFF, 0xFF)])

/-- `LedsWS2801.animate_print`.  The `painted` triple carries the delay
counter, emitted device operations and buffer after the optional `changed`
black-fill and white tiling. -/
def animate_print (s : LedsWS2801) (changed : Bool) :
    Option (LedsWS2801 × Bool) :=
  match s.leds with
  | none => none
  | some buf =>
    let painted : Option (Int × List DevOp × List RGB) :=
      if changed then
        match printPaintLoop (range3Len s.led_count.toNat) 0 (ledsFill buf (0, 0, 0)) [] with
        | none => none
        | some (b1, ops) => some (0, [DevOp.fill (0, 0, 0)] ++ ops, b1)
      else some (s.delay, [], buf)
    match painted with
    | none => none
    | some (d0, ops0, buf) =>
      let d1 := d0 + 1
      if d1 > (20 : Int) then
        match rotateStep s.led_count buf with
        | none => none
        | some (b2, ops) =>
          some ({ s with delay := 0, leds := some b2,
                         trace := s.trace ++ ops0 ++ ops }, true)
      else some ({ s with delay := d1, leds := some buf,
                          trace := s.trace ++ ops0 }, false)

/-- `LedsWS2801.configure`: (re)open the device from the stored
configuration.  Mirrors the source including the quirk that an SPI index
other than 0/1 leaves `self.leds` unchanged, and that a missing adafruit
module clears `spi_index`.  Always clears the current phase. -/
def configure (s : LedsWS2801) : LedsWS2801 :=
  let s :=
    if s.spi_index > -1 ∧ s.led_count > 0 then
      if ¬ s.adafruit then { s with spi_index := -1, leds := none }
      else if s.spi_index = 0 ∨ s.spi_index = 1 then
        { s with leds := some (List.replicate s.led_count.toNat (0, 0, 0)) }
      else s
    else { s with leds := none }
  { s with actual_state := none }

/-- The queue poll at the top of each tick (lines 148-154): dequeue at most
one notification; `changed` is true iff it differs from the current phase;
the current phase is always overwritten. -/
def pollQueue (s : LedsWS2801) : LedsWS2801 × Bool :=
  match s.state_queue with
  | [] => (s, false)
  | new_state :: rest =>
    (({ s with state_queue := rest, actual_state := some new_state }),
     decide (s.actual_state ≠ some new_state))

/-- The per-phase animation dispatch and blinker preset block of the tick
loop (lines 167-228).  Only called with a device present and a phase that is
neither `RECONFIGURE` nor `TERMINATE`; phases without a branch (including a
cleared phase and `FAILSAFE`) fall through with `do_refresh = False`. -/
def dispatchAnim (s : LedsWS2801) (changed : Bool) :
    Option (LedsWS2801 × Bool) :=
  if s.actual_state = some .WAIT ∨ s.actual_state = some .WAIT_OR_PRINT then
    match animate_wait s changed with
    | none => none
    | some (s1, do_refresh) =>
      if changed then
        let lb := ((((s1.left_btn_blinker.set_color_on
            (0xFF, 0xFF, 0xFF)).set_color_off (0, 0, 0)).set_enabled
            true).set_time_on (1/2)).set_time_off (1/2)
        let rb :=
          if s1.actual_state = some .WAIT_OR_PRINT then
            ((((s1.right_btn_blinker.set_color_on (0, 0, 0)).set_color_off
                (0xFF, 0xFF, 0xFF)).set_enabled true).set_time_on
                (1/2)).set_time_off (1/2)
          else s1.right_btn_blinker.set_enabled false
        some ({ s1 with left_btn_blinker := lb, right_btn_blinker := rb },
          do_refresh)
      else some (s1, do_refresh)
  else if s.actual_state = some .CHOOSE then
    match animate_choose s changed with
    | none => none
    | some (s1, do_refresh) =>
      if changed then
        let lb := ((((s1.left_btn_blinker.set_color_on
            (0xFF, 0, 0)).set_color_off (0, 0, 0)).set_enabled
            true).set_time_on (1/5)).set_time_off (1/5)
        let rb := ((((s1.right_btn_blinker.set_color_on
            (0, 0xFF, 0)).set_color_off (0, 0, 0)).set_enabled
            true).set_time_on (1/5)).set_time_off (1/5)
        some ({ s1 with left_btn_blinker := lb, right_btn_blinker := rb },
          do_refresh)
      else some (s1, do_refresh)
  else if s.actual_state = some .CHOSEN then
    match animate_chosen s changed with
    | none => none
    | some (s1, do_refresh) =>
      if changed then
        some ({ s1 with
          left_btn_blinker := s1.left_btn_blinker.set_enabled false,
          right_btn_blinker := s1.right_btn_blinker.set_enabled false },
          do_refresh)
      else some (s1, do_refresh)
  else if s.actual_state = some .PREVIEW then
    animate_preview s changed
  else if s.actual_state = some .CAPTURE then
    animate_capture s changed
  else if s.actual_state = some .PROCESSING then
    animate_processing s changed
  else if s.actual_state = some .PRINT then
    match animate_print s changed with
    | none => none
    | some (s1, do_refresh) =>
      if changed then
        let lb := ((((s1.left_btn_blinker.set_color_on
            (0x00, 0xAA, 0x55)).set_color_off (0, 0, 0)).set_enabled
            true).set_time_on (1/5)).set_time_off (3/5)
        let rb := ((((s1.right_btn_blinker.set_color_on
            (0, 0xFF, 0xBC)).set_color_off (0, 0, 0)).set_enabled
            true).set_time_on (1/5)).set_time_off (3/5)
        some ({ s1 with left_btn_blinker := lb, right_btn_blinker := rb },
          do_refresh)
      else some (s1, do_refresh)
  else if s.actual_state = some .FINISH then
    match s.leds with
    | none => none
    | some buf =>
      let s1 := { s with leds := some (ledsFill buf (0xCC, 0xAA, 0x10)),
                         trace := s.trace ++ [DevOp.fill (0xCC, 0xAA, 0x10)] }
      if changed then
        some ({ s1 with
          left_btn_blinker := s1.left_btn_blinker.set_enabled false,
          right_btn_blinker := s1.right_btn_blinker.set_enabled false },
          changed)
      else some (s1, changed)
  else some (s, false)

/-- One button's overlay block (lines 233-238 resp. 240-245): if the index
is not -1, save the pixel, reset the blinker on `changed`, advance it, and
write its color.  Returns the updated buffer, the saved pixel (Python
`left_led`/`right_led`), the updated blinker, the blinker's `changed` result
and the emitted device writes; `none` means an uncaught exception. -/
def overlayButton (buf : List RGB) (idx : Int) (blinker : LedBlinker)
    (changed : Bool) :
    Option (List RGB × Option RGB × LedBlinker × Bool × List DevOp) :=
  if idx > -1 then
    match stripGet buf idx with
    | none => none
    | some saved =>
      let b1 := if changed then blinker.reset else blinker
      let res := b1.animate
      match res.2.get_color with
      | none => none
      | some c =>
        match stripSet buf idx c with
        | none => none
        | some buf1 => some (buf1, some saved, res.2, res.1, [DevOp.set idx c])
  else some (buf, none, blinker, false, [])

/-- The button overlay, conditional flush and restore of the tick loop
(lines 230-254).  The restore (`if left_led:`) fires whenever the pixel was
saved: the adafruit getter returns a non-empty tuple, which is always truthy
in Python. -/
def buttonOverlay (s : LedsWS2801) (changed do_refresh : Bool) :
    LedsWS2801 :=
  match s.leds with
  | none => { s with status := .crashed }
  | some buf0 =>
    match overlayButton buf0 s.left_btn_led s.left_btn_blinker changed with
    | none => { s with status := .crashed }
    | some (buf1, left_led, lb, lchg, lops) =>
      match overlayButton buf1 s.right_btn_led s.right_btn_blinker changed with
      | none => { s with leds := some buf1, left_btn_blinker := lb,
                         trace := s.trace ++ lops, status := .crashed }
      | some (buf2, right_led, rb, rchg, rops) =>
        let dr := do_refresh || lchg || rchg
        let ops1 := lops ++ rops ++
          (if dr then [DevOp.showBuf buf2] else [])
        let restL : List RGB × List DevOp :=
          match left_led with
          | some c =>
            match stripSet buf2 s.left_btn_led c with
            | some b => (b, [DevOp.set s.left_btn_led c])
            | none => (buf2, [])
          | none => (buf2, [])
        let restR : List RGB × List DevOp :=
          match right_led with
          | some c =>
            match stripSet restL.1 s.right_btn_led c with
            | some b => (b, [DevOp.set s.right_btn_led c])
            | none => (restL.1, [])
          | none => (restL.1, [])
        { s with leds := some restR.1,
                 left_btn_blinker := lb, right_btn_blinker := rb,
                 trace := s.trace ++ ops1 ++ restL.2 ++ restR.2 }

/-- One iteration of the inner tick loop of `LedsWS2801.run` (lines
144-254).  A `RECONFIGURE` phase breaks to the outer loop, which re-runs
`configure`; `TERMINATE` switches the strip off (if present) and returns
from the thread; with no device the tick only sleeps.  A tick on a thread that
has returned or crashed does nothing. -/
def tick (s0 : LedsWS2801) : LedsWS2801 :=
  if s0.status ≠ .running then s0
  else
    let polled := pollQueue s0
    let s := polled.1
    let changed := polled.2
    if s.actual_state = some .RECONFIGURE then configure s
    else if s.actual_state = some .TERMINATE then
      match s.leds with
      | some buf =>
        let buf1 := ledsFill buf (0, 0, 0)
        { s with leds := some buf1, status := .terminated,
                 trace := s.trace ++ [DevOp.fill (0, 0, 0), DevOp.showBuf buf1] }
      | none => { s with status := .terminated }
    else if s.leds = none then s
    else
      match dispatchAnim s changed with
      | none => { s with status := .crashed }
      | some (s1, do_refresh) => buttonOverlay s1 changed do_refresh

/-- `n` iterations of the tick loop. -/
def runTicks : Nat → LedsWS2801 → LedsWS2801
  | 0, s => s
  | n + 1, s => runTicks n (tick s)

/-- `LedsWS2801.switchState`: non-blocking enqueue. -/
def switchState (s : LedsWS2801) (state : LedState) : LedsWS2801 :=
  { s with state_queue := s.state_queue ++ [state] }

/-- A parsed configuration snapshot as read by `setConfiguration`:
`SPI_device` is `none` for the string `"None"`, otherwise the parsed
integer; the other three options are parsed integers. -/
structure PiboothCfg where
  SPI_device : Option Int
  led_count : Int
  left_btn_led : Int
  right_btn_led : Int
deriving DecidableEq, Repr

/-- The SPI index derived from the snapshot (`-1` for `"None"`). -/
def cfgSpiIndex (cfg : PiboothCfg) : Int :=
  match cfg.SPI_device with
  | none => -1
  | some k => k

/-- `LedsWS2801.setConfiguration` (the Configuration Gate): store the new
values and enqueue `RECONFIGURE` iff any of the four fields differs. -/
def setConfiguration (s : LedsWS2801) (cfg : PiboothCfg) : LedsWS2801 :=
  let spi_index := cfgSpiIndex cfg
  if s.spi_index ≠ spi_index ∨ s.led_count ≠ cfg.led_count ∨
      s.left_btn_led ≠ cfg.left_btn_led ∨
      s.right_btn_led ≠ cfg.right_btn_led then
    switchState
      { s with spi_index := spi_index, led_count := cfg.led_count,
               left_btn_led := cfg.left_btn_led,
               right_btn_led := cfg.right_btn_led }
      .RECONFIGURE
  else s

/-- A controller state sitting in the Processing phase with a 12-pixel strip
and an empty queue (both button pixels "none"). -/
def procState (ps : List RGB) (d : Int) : LedsWS2801 :=
  { state_queue := [], leds := some ps, spi_index := 0, led_count := 12,
    left_btn_led := -1, right_btn_led := -1, actual_state := some .PROCESSING,
    delay := d }

/-- Run `animate_processing` for `n` ticks, the first with `changed = true`
and the rest with `changed = false`, collecting the per-tick dirty flags. -/
def procRun (s0 : LedsWS2801) : Nat → Option (LedsWS2801 × List Bool)
  | 0 => some (s0, [])
  | n + 1 =>
    match procRun s0 n with
    | none => none
    | some (s, ds) =>
      match animate_processing s (n == 0) with
      | none => none
      | some (s1, d) => some (s1, ds ++ [d])

/-- The blinker state after `n` advances (at the default 0.01 s refresh) of
a freshly reset, enabled blinker with `time_on = time_off = 0.5`. -/
def blinkerSeq (c_on c_off : Option RGB) : Nat → LedBlinker
  | 0 => { time_on := 1/2, time_off := 1/2, color_on := c_on,
           color_off := c_off, enabled := true, is_on := false, elapsed := 0 }
  | n + 1 => ((blinkerSeq c_on c_off n).animate).2

/-- The Choose hue accumulator after `n` ticks, starting from the initial
`self.hue_value = 0.0`. -/
def hueIter : Nat → ℚ
  | 0 => 0
  | n + 1 => choose_hue_step (hueIter n)

/-! ### Helper lemmas about the pixel buffer -/

lemma stripSet_some (buf : List RGB) (i : Int) (c : RGB) (hi : 0 ≤ i)
    (hlt : i < (buf.length : Int)) :
    stripSet buf i c = some (buf.set i.toNat c) := by
  have hneg : ¬ i < 0 := not_lt.mpr hi
  simp [stripSet, hneg, hi, hlt]

lemma stripSet_length (buf b1 : List RGB) (i : Int) (c : RGB)
    (h : stripSet buf i c = some b1) : b1.length = buf.length := by
  unfold stripSet at h
  dsimp only at h
  split at h
  · split at h
    · cases h; exact List.length_set ..
    · cases h
  · split at h
    · cases h; exact List.length_set ..
    · cases h

lemma stripGet_some_bound (buf : List RGB) (i : Int) (c : RGB) (hi : 0 ≤ i)
    (h : stripGet buf i = some c) : i < (buf.length : Int) := by
  have hneg : ¬ i < 0 := not_lt.mpr hi
  simp only [stripGet, hneg, if_false] at h
  split at h
  case isTrue hb => exact hb.2
  case isFalse => cases h

lemma stripGet_none_of_ge (buf : List RGB) (i : Int)
    (h : (buf.length : Int) ≤ i) : stripGet buf i = none := by
  have hneg : ¬ i < 0 := by
    have : (0 : Int) ≤ buf.length := Int.ofNat_nonneg _
    omega
  simp only [stripGet, hneg, if_false]
  rw [if_neg (by omega)]

lemma stripGet_set_self (buf b1 : List RGB) (i : Int) (c : RGB) (hi : 0 ≤ i)
    (h : stripSet buf i c = some b1) : stripGet b1 i = some c := by
  have hneg : ¬ i < 0 := not_lt.mpr hi
  simp only [stripSet, hneg, if_false] at h
  split at h
  case isTrue hb =>
    cases h
    simp only [stripGet, hneg, if_false, List.length_set]
    rw [if_pos hb, List.get?_eq_getElem?]
    exact List.getElem?_set_eq_of_lt c (by omega)
  case isFalse => cases h

lemma stripGet_set_ne (buf b1 : List RGB) (i j : Int) (c : RGB) (hi : 0 ≤ i)
    (hj : 0 ≤ j) (hne : i ≠ j) (h : stripSet buf i c = some b1) :
    stripGet b1 j = stripGet buf j := by
  have hnegi : ¬ i < 0 := not_lt.mpr hi
  have hnegj : ¬ j < 0 := not_lt.mpr hj
  simp only [stripSet, hnegi, if_false] at h
  split at h
  case isTrue hb =>
    cases h
    simp only [stripGet, hnegj, if_false, List.length_set]
    split
    · rw [List.get?_eq_getElem?, List.get?_eq_getElem?]
      exact List.getElem?_set_ne (by omega)
    · rfl
  case isFalse => cases h

lemma stripGet_ledsFill (buf : List RGB) (i : Int) (c : RGB) (hi : 0 ≤ i)
    (hlt : i < (buf.length : Int)) : stripGet (ledsFill buf c) i = some c := by
  have hneg : ¬ i < 0 := not_lt.mpr hi
  simp only [stripGet, ledsFill, hneg, if_false, List.length_map]
  rw [if_pos ⟨hi, hlt⟩, List.get?_eq_getElem?, List.getElem?_map]
  have hb : i.toNat < buf.length := by omega
  rw [List.getElem?_eq_getElem hb]
  rfl

/-! ### C4 — the Configuration Gate -/

/-- C4: `setConfiguration` enqueues a `RECONFIGURE` notification if and only
if at least one of the four fields (derived SPI index, led count, left and
right button pixel) differs from the stored values; when all four are equal
it leaves the whole controller state (queue included) unchanged. -/
theorem setConfiguration_gate (s : LedsWS2801) (cfg : PiboothCfg) :
    ((setConfiguration s cfg).state_queue =
        s.state_queue ++ [LedState.RECONFIGURE] ↔
      (s.spi_index ≠ cfgSpiIndex cfg ∨ s.led_count ≠ cfg.led_count ∨
       s.left_btn_led ≠ cfg.left_btn_led ∨
       s.right_btn_led ≠ cfg.right_btn_led)) ∧
    (¬ (s.spi_index ≠ cfgSpiIndex cfg ∨ s.led_count ≠ cfg.led_count ∨
        s.left_btn_led ≠ cfg.left_btn_led ∨
        s.right_btn_led ≠ cfg.right_btn_led) →
      setConfiguration s cfg = s) := by
  constructor
  · constructor
    · intro h
      by_contra hc
      rw [setConfiguration] at h
      rw [if_neg hc] at h
      have := congrArg List.length h
      simp at this
    · intro hc
      rw [setConfiguration, if_pos hc]
      rfl
  · intro hc
    rw [setConfiguration, if_neg hc]

/-- C4 witness: with all four fields equal nothing is enqueued and the state
is unchanged; flipping the led count enqueues `RECONFIGURE`. -/
theorem setConfiguration_gate_witness :
    (setConfiguration { led_count := 5, spi_index := -1 }
        { SPI_device := none, led_count := 5, left_btn_led := -1,
          right_btn_led := -1 } =
      { led_count := 5, spi_index := -1 }) ∧
    (setConfiguration { led_count := 5, spi_index := -1 }
        { SPI_device := none, led_count := 7, left_btn_led := -1,
          right_btn_led := -1 }).state_queue = [LedState.RECONFIGURE] := by
  constructor
  · exact (setConfiguration_gate { led_count := 5, spi_index := -1 }
      { SPI_device := none, led_count := 5, left_btn_led := -1,
        right_btn_led := -1 }).2 (by simp [cfgSpiIndex])
  · exact (setConfiguration_gate { led_count := 5, spi_index := -1 }
      { SPI_device := none, led_count := 7, left_btn_led := -1,
        right_btn_led := -1 }).1.mpr (by simp)

/-! ### C3 — Terminate finality -/

/-- C3: when the running controller dequeues `TERMINATE` with a device
present, that tick appends exactly one `fill (0,0,0)` followed by exactly
one flush to the device log and moves the thread to the terminated state;
any tick of a non-running thread is a no-op (so no later rendering, pixel
write or flush happens and no notification enqueued afterwards is ever
processed, whatever the queue holds). -/
theorem terminate_finality :
    (∀ (s : LedsWS2801) (buf : List RGB) (rest : List LedState),
      s.status = .running → s.state_queue = .TERMINATE :: rest →
      s.leds = some buf →
      (tick s).status = .terminated ∧
      (tick s).trace = s.trace ++
        [DevOp.fill (0, 0, 0), DevOp.showBuf (ledsFill buf (0, 0, 0))]) ∧
    (∀ t : LedsWS2801, t.status ≠ .running → tick t = t) := by
  constructor
  · intro s buf rest hrun hq hl
    have htick : tick s =
        { s with state_queue := rest, actual_state := some .TERMINATE,
                 leds := some (ledsFill buf (0, 0, 0)), status := .terminated,
                 trace := s.trace ++
                   [DevOp.fill (0, 0, 0),
                    DevOp.showBuf (ledsFill buf (0, 0, 0))] } := by
      simp [tick, pollQueue, hq, hrun, hl]
    rw [htick]
    exact ⟨rfl, rfl⟩
  · intro t ht
    rw [tick, if_pos ht]

/-- C3 witness: a concrete running controller with a 2-pixel device and
`TERMINATE` at the head of the queue. -/
theorem terminate_finality_witness :
    (tick { state_queue := [.TERMINATE], leds := some [(1, 1, 1), (2, 2, 2)],
            spi_index := 0, led_count := 2,
            actual_state := some .WAIT }).status = .terminated ∧
    (tick { state_queue := [.TERMINATE], leds := some [(1, 1, 1), (2, 2, 2)],
            spi_index := 0, led_count := 2,
            actual_state := some .WAIT }).trace =
      [] ++ [DevOp.fill (0, 0, 0),
             DevOp.showBuf (ledsFill [(1, 1, 1), (2, 2, 2)] (0, 0, 0))] :=
  terminate_finality.1
    { state_queue := [.TERMINATE], leds := some [(1, 1, 1), (2, 2, 2)],
      spi_index := 0, led_count := 2, actual_state := some .WAIT }
    [(1, 1, 1), (2, 2, 2)] [] rfl rfl rfl

/-! ### C1 — button pixel index out of range -/

/-- C1 (amended): a button pixel index that is not -1 but is at least the
buffer length is NOT treated as "none": the overlay block still reads that
pixel, the access is out of bounds, and the tick hard-errors (the thread
dies), emitting no device operation. -/
theorem invalid_button_index_crashes (s : LedsWS2801) (buf : List RGB)
    (hrun : s.status = .running) (hq : s.state_queue = [])
    (ha : s.actual_state = some .FAILSAFE) (hl : s.leds = some buf)
    (hge : (buf.length : Int) ≤ s.left_btn_led) :
    (tick s).status = .crashed ∧ (tick s).trace = s.trace := by
  have hnone : stripGet buf s.left_btn_led = none := stripGet_none_of_ge _ _ hge
  have hgt : s.left_btn_led > -1 := by
    have : (0 : Int) ≤ buf.length := Int.ofNat_nonneg _
    omega
  have htick : tick s = { s with status := .crashed } := by
    simp [tick, pollQueue, hq, hrun, ha, hl, dispatchAnim, buttonOverlay,
      overlayButton, hgt, hnone]
  rw [htick]
  exact ⟨rfl, rfl⟩

/-- C1 witness: a 3-pixel device with `left_btn_led = 5` satisfies the
hypotheses and the tick dies without any device operation. -/
theorem invalid_button_index_crashes_witness :
    (tick { state_queue := [], leds := some [(0, 0, 0), (0, 0, 0), (0, 0, 0)],
            spi_index := 0, led_count := 3, left_btn_led := 5,
            actual_state := some .FAILSAFE }).status = .crashed ∧
    (tick { state_queue := [], leds := some [(0, 0, 0), (0, 0, 0), (0, 0, 0)],
            spi_index := 0, led_count := 3, left_btn_led := 5,
            actual_state := some .FAILSAFE }).trace = [] :=
  invalid_button_index_crashes
    { state_queue := [], leds := some [(0, 0, 0), (0, 0, 0), (0, 0, 0)],
      spi_index := 0, led_count := 3, left_btn_led := 5,
      actual_state := some .FAILSAFE }
    [(0, 0, 0), (0, 0, 0), (0, 0, 0)] rfl rfl rfl rfl (by norm_num)

/-- A reachable configuration with `pixel_count = 3` and
`left_button_pixel = 4` (both offered by the configuration menu), sitting in
the Preview phase with an empty queue. -/
def outOfRangeButtonState : LedsWS2801 :=
  { state_queue := [], leds := some [(9, 9, 9), (9, 9, 9), (9, 9, 9)],
    spi_index := 0, led_count := 3, left_btn_led := 4,
    actual_state := some .PREVIEW }

/-- C1 counterexample: with `pixel_count = 3` and `left_button_pixel = 4`
the tick does not skip the overlay: it performs an out-of-bounds pixel
access and the thread dies — refuting "treated as none, not a hard
error". -/
theorem invalid_button_index_not_skipped :
    (tick outOfRangeButtonState).status = .crashed ∧
    (tick outOfRangeButtonState).status ≠ .running := by
  have h1 : (tick outOfRangeButtonState).status = .crashed := rfl
  refine ⟨h1, ?_⟩
  rw [h1]
  intro h
  cases h

/-! ### C7 — degraded mode (no device) -/

/-- C7: with `pixel_count = 0` (or the SPI channel "none") the configure
step leaves the device absent, and from any running state without a device,
any number of ticks over a queue containing neither `RECONFIGURE` nor
`TERMINATE` performs no device operation at all (no pixel write, no fill,
no flush) and keeps the device absent and the thread running. -/
theorem degraded_mode :
    (∀ s : LedsWS2801, s.led_count ≤ 0 ∨ s.spi_index ≤ -1 →
      (configure s).leds = none ∧ (configure s).trace = s.trace) ∧
    (∀ (n : Nat) (s : LedsWS2801), s.status = .running → s.leds = none →
      s.actual_state ≠ some .RECONFIGURE →
      s.actual_state ≠ some .TERMINATE →
      (∀ p ∈ s.state_queue, p ≠ .RECONFIGURE ∧ p ≠ .TERMINATE) →
      (runTicks n s).leds = none ∧ (runTicks n s).trace = s.trace ∧
        (runTicks n s).status = .running) := by
  constructor
  · intro s hs
    have hcond : ¬ (s.spi_index > -1 ∧ s.led_count > 0) := by omega
    rw [configure, if_neg hcond]
    exact ⟨rfl, rfl⟩
  · intro n
    induction n with
    | zero => intro s _ hl _ _ _; exact ⟨hl, rfl, by assumption⟩
    | succ n ih =>
      intro s hrun hl hnR hnT hq
      rw [runTicks]
      rcases hq0 : s.state_queue with _ | ⟨p, rest⟩
      · have htick : tick s = s := by
          simp [tick, pollQueue, hq0, hrun, hnR, hnT, hl]
        rw [htick]
        exact ih s hrun hl hnR hnT hq
      · have hp := hq p (by rw [hq0]; exact List.mem_cons_self p rest)
        have htick : tick s =
            { s with state_queue := rest, actual_state := some p } := by
          simp [tick, pollQueue, hq0, hrun, hl, Option.some.injEq, hp.1, hp.2]
        rw [htick]
        refine ih _ hrun hl ?_ ?_ ?_
        · simp [hp.1]
        · simp [hp.2]
        · intro q hqmem
          exact hq q (by rw [hq0]; exact List.mem_cons_of_mem p hqmem)

/-- A device-less running controller in the Wait phase with two ordinary
phases queued. -/
def noDeviceState : LedsWS2801 :=
  { leds := none, actual_state := some .WAIT,
    state_queue := [.CHOOSE, .WAIT] }

/-- C7 witness: `pixel_count = 0` yields no device, and three ticks over a
queue of ordinary phases emit no device operation. -/
theorem degraded_mode_witness :
    (configure { led_count := 0, spi_index := 0 }).leds = none ∧
    (runTicks 3 noDeviceState).trace = [] := by
  refine ⟨(degraded_mode.1 { led_count := 0, spi_index := 0 }
    (Or.inl (by norm_num))).1, ?_⟩
  exact (degraded_mode.2 3 noDeviceState rfl rfl (by decide) (by decide)
    (by decide)).2.1

/-! ### C6 — Processing rotation period -/

/-- Run `animate_processing` for `n` further ticks with `changed = false`
(every tick after the `changed` one), collecting the dirty flags. -/
def procTail (S : LedsWS2801) : Nat → Option (LedsWS2801 × List Bool)
  | 0 => some (S, [])
  | n + 1 =>
    match procTail S n with
    | none => none
    | some (s, ds) =>
      match animate_processing s false with
      | none => none
      | some (s1, d) => some (s1, ds ++ [d])

/-- The concrete controller state right after the `changed` Processing tick
on a 12-pixel strip: red/green/blue tiling painted, delay counter at 1. -/
def procTiledState : LedsWS2801 :=
  { state_queue := [], spi_index := 0, led_count := 12,
    left_btn_led := -1, right_btn_led := -1, actual_state := some .PROCESSING,
    delay := 1,
    leds := some [(0xFF, 0, 0), (0, 0xFF, 0), (0, 0, 0xFF),
                  (0xFF, 0, 0), (0, 0xFF, 0), (0, 0, 0xFF),
                  (0xFF, 0, 0), (0, 0xFF, 0), (0, 0, 0xFF),
                  (0xFF, 0, 0), (0, 0xFF, 0), (0, 0, 0xFF)],
    trace := [.set 0 (0xFF, 0, 0), .set 1 (0, 0xFF, 0), .set 2 (0, 0, 0xFF),
              .set 3 (0xFF, 0, 0), .set 4 (0, 0xFF, 0), .set 5 (0, 0, 0xFF),
              .set 6 (0xFF, 0, 0), .set 7 (0, 0xFF, 0), .set 8 (0, 0, 0xFF),
              .set 9 (0xFF, 0, 0), .set 10 (0, 0xFF, 0), .set 11 (0, 0, 0xFF)] }

lemma procRun_shift (s0 : LedsWS2801)
    (h : procRun s0 1 = some (procTiledState, [false])) :
    ∀ n, procRun s0 (n + 1) =
      (procTail procTiledState n).map (fun r => (r.1, false :: r.2)) := by
  intro n
  induction n with
  | zero => simpa [procTail] using h
  | succ n ih =>
    show (match procRun s0 (n + 1) with
      | none => none
      | some (s, ds) =>
        match animate_processing s ((n + 1) == 0) with
        | none => none
        | some (s1, d) => some (s1, ds ++ [d])) = _
    rw [ih]
    rw [procTail]
    cases hpt : procTail procTiledState n with
    | none => simp
    | some r =>
      obtain ⟨s, ds⟩ := r
      cases hap : animate_processing s false with
      | none => simp [hap]
      | some r1 =>
        obtain ⟨s1, dflag⟩ := r1
        simp [hap]

set_option maxHeartbeats 1600000 in
/-- C6: in Processing with 12 pixels, whatever the initial buffer contents
and delay counter, the `changed` tick paints repeating red/green/blue groups
of three from index 0 (and is itself not dirty); after 51 ticks (counting
the `changed` tick as the first) the buffer is the tiled buffer rotated left
by one and that tick alone is dirty; after 102 ticks it is rotated left by
two; the per-tick dirty flags over ticks 1..102 are true exactly at ticks 51
and 102. -/
theorem processing_rotation (p0 p1 p2 p3 p4 p5 p6 p7 p8 p9 p10 p11 : RGB)
    (d : Int) :
    (procRun (procState [p0, p1, p2, p3, p4, p5, p6, p7, p8, p9, p10, p11] d)
        1).map (fun r => r.1.leds) =
      some (some [((0xFF : Int), (0 : Int), (0 : Int)), (0, 0xFF, 0), (0, 0, 0xFF),
        (0xFF, 0, 0), (0, 0xFF, 0), (0, 0, 0xFF),
        (0xFF, 0, 0), (0, 0xFF, 0), (0, 0, 0xFF),
        (0xFF, 0, 0), (0, 0xFF, 0), (0, 0, 0xFF)]) ∧
    (procRun (procState [p0, p1, p2, p3, p4, p5, p6, p7, p8, p9, p10, p11] d)
        51).map (fun r => r.1.leds) =
      some (some [((0 : Int), (0xFF : Int), (0 : Int)), (0, 0, 0xFF), (0xFF, 0, 0),
        (0, 0xFF, 0), (0, 0, 0xFF), (0xFF, 0, 0),
        (0, 0xFF, 0), (0, 0, 0xFF), (0xFF, 0, 0),
        (0, 0xFF, 0), (0, 0, 0xFF), (0xFF, 0, 0)]) ∧
    (procRun (procState [p0, p1, p2, p3, p4, p5, p6, p7, p8, p9, p10, p11] d)
        102).map (fun r => r.1.leds) =
      some (some [((0 : Int), (0 : Int), (0xFF : Int)), (0xFF, 0, 0), (0, 0xFF, 0),
        (0, 0, 0xFF), (0xFF, 0, 0), (0, 0xFF, 0),
        (0, 0, 0xFF), (0xFF, 0, 0), (0, 0xFF, 0),
        (0, 0, 0xFF), (0xFF, 0, 0), (0, 0xFF, 0)]) ∧
    (procRun (procState [p0, p1, p2, p3, p4, p5, p6, p7, p8, p9, p10, p11] d)
        102).map (fun r => r.2) =
      some [false, false, false, false, false, false, false, false, false, false,
         false, false, false, false, false, false, false, false, false, false,
         false, false, false, false, false, false, false, false, false, false,
         false, false, false, false, false, false, false, false, false, false,
         false, false, false, false, false, false, false, false, false, false,
         true, false, false, false, false, false, false, false, false, false,
         false, false, false, false, false, false, false, false, false, false,
         false, false, false, false, false, false, false, false, false, false,
         false, false, false, false, false, false, false, false, false, false,
         false, false, false, false, false, false, false, false, false, false,
         false, true] := by
  have h1 : procRun
      (procState [p0, p1, p2, p3, p4, p5, p6, p7, p8, p9, p10, p11] d) 1 =
      some (procTiledState, [false]) := rfl
  have hs := procRun_shift _ h1
  have h51 := hs 50
  have h102 := hs 101
  norm_num at h51 h102
  refine ⟨?_, ?_, ?_, ?_⟩
  · rw [h1]
    exact rfl
  · rw [h51]
    exact rfl
  · rw [h102]
    exact rfl
  · rw [h102]
    exact rfl

/-! ### C5 — idempotent re-delivery of a phase -/


lemma animate_wait_blinkers (s : LedsWS2801) (ch : Bool) :
    (animate_wait s ch).map
        (fun r => (r.1.left_btn_blinker, r.1.right_btn_blinker)) =
      (animate_wait s ch).map
        (fun _ => (s.left_btn_blinker, s.right_btn_blinker)) := by
  unfold animate_wait
  dsimp only
  repeat' split
  all_goals rfl

lemma animate_choose_blinkers (s : LedsWS2801) (ch : Bool) :
    (animate_choose s ch).map
        (fun r => (r.1.left_btn_blinker, r.1.right_btn_blinker)) =
      (animate_choose s ch).map
        (fun _ => (s.left_btn_blinker, s.right_btn_blinker)) := by
  unfold animate_choose
  repeat' split
  all_goals rfl

lemma animate_chosen_blinkers (s : LedsWS2801) (ch : Bool) :
    (animate_chosen s ch).map
        (fun r => (r.1.left_btn_blinker, r.1.right_btn_blinker)) =
      (animate_chosen s ch).map
        (fun _ => (s.left_btn_blinker, s.right_btn_blinker)) := by
  unfold animate_chosen
  repeat' split
  all_goals rfl

lemma animate_preview_blinkers (s : LedsWS2801) (ch : Bool) :
    (animate_preview s ch).map
        (fun r => (r.1.left_btn_blinker, r.1.right_btn_blinker)) =
      (animate_preview s ch).map
        (fun _ => (s.left_btn_blinker, s.right_btn_blinker)) := by
  unfold animate_preview
  repeat' split
  all_goals rfl

lemma animate_capture_blinkers (s : LedsWS2801) (ch : Bool) :
    (animate_capture s ch).map
        (fun r => (r.1.left_btn_blinker, r.1.right_btn_blinker)) =
      (animate_capture s ch).map
        (fun _ => (s.left_btn_blinker, s.right_btn_blinker)) := by
  unfold animate_capture
  dsimp only
  repeat' split
  all_goals rfl

lemma animate_processing_blinkers (s : LedsWS2801) (ch : Bool) :
    (animate_processing s ch).map
        (fun r => (r.1.left_btn_blinker, r.1.right_btn_blinker)) =
      (animate_processing s ch).map
        (fun _ => (s.left_btn_blinker, s.right_btn_blinker)) := by
  unfold animate_processing
  dsimp only
  repeat' split
  all_goals rfl

lemma animate_print_blinkers (s : LedsWS2801) (ch : Bool) :
    (animate_print s ch).map
        (fun r => (r.1.left_btn_blinker, r.1.right_btn_blinker)) =
      (animate_print s ch).map
        (fun _ => (s.left_btn_blinker, s.right_btn_blinker)) := by
  unfold animate_print
  dsimp only
  repeat' split
  all_goals rfl

lemma blinkers_of_map_eq {o : Option (LedsWS2801 × Bool)} {s : LedsWS2801}
    {x : LedsWS2801 × Bool}
    (hmap : o.map (fun r => (r.1.left_btn_blinker, r.1.right_btn_blinker)) =
      o.map (fun _ => (s.left_btn_blinker, s.right_btn_blinker)))
    (ho : o = some x) :
    x.1.left_btn_blinker = s.left_btn_blinker ∧
      x.1.right_btn_blinker = s.right_btn_blinker := by
  subst ho
  simp only [Option.map_some', Option.some.injEq, Prod.mk.injEq] at hmap
  exact hmap

lemma dispatchAnim_false_blinkers (s : LedsWS2801) :
    (dispatchAnim s false).map
        (fun r => (r.1.left_btn_blinker, r.1.right_btn_blinker)) =
      (dispatchAnim s false).map
        (fun _ => (s.left_btn_blinker, s.right_btn_blinker)) := by
  unfold dispatchAnim
  rcases hA : s.actual_state with _ | p
  · rfl
  · cases p with
    | WAIT =>
      rcases hw : animate_wait s false with _ | ⟨s1, dr⟩
      · rfl
      · have hc := blinkers_of_map_eq (animate_wait_blinkers s false) hw
        show some (s1.left_btn_blinker, s1.right_btn_blinker) =
          some (s.left_btn_blinker, s.right_btn_blinker)
        rw [hc.1, hc.2]
    | WAIT_OR_PRINT =>
      rcases hw : animate_wait s false with _ | ⟨s1, dr⟩
      · rfl
      · have hc := blinkers_of_map_eq (animate_wait_blinkers s false) hw
        show some (s1.left_btn_blinker, s1.right_btn_blinker) =
          some (s.left_btn_blinker, s.right_btn_blinker)
        rw [hc.1, hc.2]
    | CHOOSE =>
      rcases hw : animate_choose s false with _ | ⟨s1, dr⟩
      · rfl
      · have hc := blinkers_of_map_eq (animate_choose_blinkers s false) hw
        show some (s1.left_btn_blinker, s1.right_btn_blinker) =
          some (s.left_btn_blinker, s.right_btn_blinker)
        rw [hc.1, hc.2]
    | CHOSEN =>
      rcases hw : animate_chosen s false with _ | ⟨s1, dr⟩
      · rfl
      · have hc := blinkers_of_map_eq (animate_chosen_blinkers s false) hw
        show some (s1.left_btn_blinker, s1.right_btn_blinker) =
          some (s.left_btn_blinker, s.right_btn_blinker)
        rw [hc.1, hc.2]
    | PREVIEW =>
      rcases hw : animate_preview s false with _ | ⟨s1, dr⟩
      · rfl
      · have hc := blinkers_of_map_eq (animate_preview_blinkers s false) hw
        show some (s1.left_btn_blinker, s1.right_btn_blinker) =
          some (s.left_btn_blinker, s.right_btn_blinker)
        rw [hc.1, hc.2]
    | CAPTURE =>
      rcases hw : animate_capture s false with _ | ⟨s1, dr⟩
      · rfl
      · have hc := blinkers_of_map_eq (animate_capture_blinkers s false) hw
        show some (s1.left_btn_blinker, s1.right_btn_blinker) =
          some (s.left_btn_blinker, s.right_btn_blinker)
        rw [hc.1, hc.2]
    | PROCESSING =>
      rcases hw : animate_processing s false with _ | ⟨s1, dr⟩
      · rfl
      · have hc := blinkers_of_map_eq (animate_processing_blinkers s false) hw
        show some (s1.left_btn_blinker, s1.right_btn_blinker) =
          some (s.left_btn_blinker, s.right_btn_blinker)
        rw [hc.1, hc.2]
    | PRINT =>
      rcases hw : animate_print s false with _ | ⟨s1, dr⟩
      · rfl
      · have hc := blinkers_of_map_eq (animate_print_blinkers s false) hw
        show some (s1.left_btn_blinker, s1.right_btn_blinker) =
          some (s.left_btn_blinker, s.right_btn_blinker)
        rw [hc.1, hc.2]
    | FINISH =>
      rcases hl : s.leds with _ | buf
      · rfl
      · rfl
    | RECONFIGURE => rfl
    | FAILSAFE => rfl
    | TERMINATE => rfl

lemma overlayButton_blinker (buf : List RGB) (idx : Int) (blinker : LedBlinker)
    (out : List RGB × Option RGB × LedBlinker × Bool × List DevOp)
    (h : overlayButton buf idx blinker false = some out) :
    out.2.2.1 = (blinker.animate).2 ∨ out.2.2.1 = blinker := by
  unfold overlayButton at h
  dsimp only at h
  repeat' (first | split at h | dsimp only at h)
  all_goals first
    | exact Option.noConfusion h
    | exact absurd (by assumption : (false : Bool) = true) (by simp)
    | (injection h with h1; subst h1; exact Or.inl rfl)
    | (injection h with h1; subst h1; exact Or.inr rfl)

lemma buttonOverlay_blinkers (s : LedsWS2801) (dr : Bool) :
    ((buttonOverlay s false dr).left_btn_blinker = s.left_btn_blinker ∨
      (buttonOverlay s false dr).left_btn_blinker =
        (s.left_btn_blinker.animate).2) ∧
    ((buttonOverlay s false dr).right_btn_blinker = s.right_btn_blinker ∨
      (buttonOverlay s false dr).right_btn_blinker =
        (s.right_btn_blinker.animate).2) := by
  unfold buttonOverlay
  rcases hl : s.leds with _ | buf
  · exact ⟨Or.inl rfl, Or.inl rfl⟩
  · dsimp only
    rcases ho1 : overlayButton buf s.left_btn_led s.left_btn_blinker false
        with _ | out1
    · exact ⟨Or.inl rfl, Or.inl rfl⟩
    · obtain ⟨buf1, left_led, lb, lchg, lops⟩ := out1
      have hb1 := overlayButton_blinker _ _ _ _ ho1
      dsimp only
      rcases ho2 : overlayButton buf1 s.right_btn_led s.right_btn_blinker false
          with _ | out2
      · refine ⟨?_, Or.inl rfl⟩
        rcases hb1 with h1 | h1
        · exact Or.inr h1
        · exact Or.inl h1
      · obtain ⟨buf2, right_led, rb, rchg, rops⟩ := out2
        have hb2 := overlayButton_blinker _ _ _ _ ho2
        dsimp only
        constructor
        · rcases hb1 with h1 | h1
          · exact Or.inr h1
          · exact Or.inl h1
        · rcases hb2 with h2 | h2
          · exact Or.inr h2
          · exact Or.inl h2

/-- C5 (amended): for any phase OTHER than `Reconfigure` (see the
counterexample) and `Terminate`, re-delivering the current phase yields
`changed = false` on that dequeue, the current phase is still overwritten
with the dequeued value, and neither Blinker is reset or given a preset on
that tick: each Blinker is either untouched or advanced by exactly one
ordinary `animate` step. -/
theorem same_phase_second_delivery (s : LedsWS2801) (p : LedState)
    (rest : List LedState)
    (hrun : s.status = .running) (ha : s.actual_state = some p)
    (hq : s.state_queue = p :: rest)
    (hR : p ≠ .RECONFIGURE) (hT : p ≠ .TERMINATE) :
    (pollQueue s).2 = false ∧
    (pollQueue s).1.actual_state = some p ∧
    ((tick s).left_btn_blinker = s.left_btn_blinker ∨
      (tick s).left_btn_blinker = (s.left_btn_blinker.animate).2) ∧
    ((tick s).right_btn_blinker = s.right_btn_blinker ∨
      (tick s).right_btn_blinker = (s.right_btn_blinker.animate).2) := by
  have hpoll : pollQueue s =
      ({ s with state_queue := rest, actual_state := some p }, false) := by
    simp [pollQueue, hq, ha]
  refine ⟨by rw [hpoll], by rw [hpoll], ?_⟩
  rcases hld : s.leds with _ | buf
  · have htick :
        tick s = { s with state_queue := rest, actual_state := some p } := by
      simp [tick, hrun, hpoll, hR, hT, hld]
    rw [htick]
    exact ⟨Or.inl rfl, Or.inl rfl⟩
  · rcases hd : dispatchAnim
        { s with state_queue := rest, actual_state := some p,
                 leds := some buf, status := .running } false
        with _ | s1d
    · have htick :
          tick s = { s with state_queue := rest, actual_state := some p,
                            status := .crashed } := by
        simp [tick, hrun, hpoll, hR, hT, hld, hd]
      rw [htick]
      exact ⟨Or.inl rfl, Or.inl rfl⟩
    · obtain ⟨s1, dr⟩ := s1d
      have htick : tick s = buttonOverlay s1 false dr := by
        simp [tick, hrun, hpoll, hR, hT, hld, hd]
      have hdisp := blinkers_of_map_eq (dispatchAnim_false_blinkers
        { s with state_queue := rest, actual_state := some p,
                 leds := some buf, status := .running }) hd
      have hbl := buttonOverlay_blinkers s1 dr
      rw [htick]
      constructor
      · rcases hbl.1 with h1 | h1
        · exact Or.inl (by rw [h1, hdisp.1])
        · exact Or.inr (by rw [h1, hdisp.1])
      · rcases hbl.2 with h2 | h2
        · exact Or.inl (by rw [h2, hdisp.2])
        · exact Or.inr (by rw [h2, hdisp.2])

/-- A running controller in the Wait phase with Wait queued again and no
device. -/
def repeatWaitState : LedsWS2801 :=
  { state_queue := [.WAIT], actual_state := some .WAIT, leds := none }

/-- C5 witness: re-delivering `WAIT` gives `changed = false`, keeps the
phase, and leaves the blinkers alone (no device, so no advance either). -/
theorem same_phase_second_delivery_witness :
    (pollQueue repeatWaitState).2 = false ∧
    (pollQueue repeatWaitState).1.actual_state = some .WAIT ∧
    ((tick repeatWaitState).left_btn_blinker =
        repeatWaitState.left_btn_blinker ∨
      (tick repeatWaitState).left_btn_blinker =
        (repeatWaitState.left_btn_blinker.animate).2) ∧
    ((tick repeatWaitState).right_btn_blinker =
        repeatWaitState.right_btn_blinker ∨
      (tick repeatWaitState).right_btn_blinker =
        (repeatWaitState.right_btn_blinker.animate).2) :=
  same_phase_second_delivery repeatWaitState .WAIT [] rfl rfl rfl
    (by decide) (by decide)

/-- A running controller in the Wait phase with `RECONFIGURE` queued
twice. -/
def repeatReconfigureState : LedsWS2801 :=
  { state_queue := [.RECONFIGURE, .RECONFIGURE], actual_state := some .WAIT,
    spi_index := 0, led_count := 3 }

/-- C5 counterexample: deliver `RECONFIGURE` in two consecutive dequeues.
The first dequeue reconfigures, and `configure` clears the current phase, so
the second dequeue of the same value computes `changed = true` — refuting
"the second dequeue yields changed=false" for every phase. -/
theorem same_phase_second_delivery_cex :
    (tick repeatReconfigureState).state_queue = [.RECONFIGURE] ∧
    (tick repeatReconfigureState).actual_state = none ∧
    (pollQueue (tick repeatReconfigureState)).2 = true ∧
    (pollQueue (tick repeatReconfigureState)).2 ≠ false := by
  refine ⟨rfl, rfl, rfl, ?_⟩
  have h : (pollQueue (tick repeatReconfigureState)).2 = true := rfl
  rw [h]
  decide

/-! ### C8 — Blinker timing -/

lemma blinkerSeq_formula (c_on c_off : Option RGB) (n : Nat) :
    blinkerSeq c_on c_off n =
      { time_on := 1/2, time_off := 1/2, color_on := c_on, color_off := c_off,
        enabled := true, is_on := decide ((n / 50) % 2 = 1),
        elapsed := ((n % 50 : Nat) : ℚ) / 100 } := by
  induction n with
  | zero =>
    norm_num [blinkerSeq, LedBlinker.mk.injEq]
  | succ n ih =>
    show ((blinkerSeq c_on c_off n).animate).2 = _
    rw [ih]
    unfold LedBlinker.animate
    dsimp only
    rcases hm : decide (n % 50 = 49) with _ | _
    · have hm' : n % 50 ≤ 48 := by
        have := of_decide_eq_false hm
        omega
      have hlt : ¬ ((n % 50 : Nat) : ℚ) / 100 + 1/100 ≥ 1/2 := by
        have hle : ((n % 50 : Nat) : ℚ) ≤ 48 := by exact_mod_cast hm'
        rw [ge_iff_le, div_add_div_same, le_div_iff (by norm_num)]
        push_cast
        linarith
      have hd : (n + 1) / 50 = n / 50 := by omega
      have he : (n + 1) % 50 = n % 50 + 1 := by omega
      rcases hon : decide ((n / 50) % 2 = 1) with _ | _
      · simp only [if_true, if_neg hlt, hon, Bool.false_eq_true, if_false]
        congr 1
        · rw [hd]
          exact hon.symm
        · rw [he]
          push_cast
          ring
      · simp only [if_true, if_neg hlt, hon, if_false]
        congr 1
        · rw [hd]
          exact hon.symm
        · rw [he]
          push_cast
          ring
    · have hm' : n % 50 = 49 := of_decide_eq_true hm
      have hge : ((n % 50 : Nat) : ℚ) / 100 + 1/100 ≥ 1/2 := by
        rw [hm']
        norm_num
      have hd : (n + 1) / 50 = n / 50 + 1 := by omega
      have he : (n + 1) % 50 = 0 := by omega
      rcases Nat.mod_two_eq_zero_or_one (n / 50) with hpar | hpar
      · have hon : decide ((n / 50) % 2 = 1) = false := by
          rw [hpar]; decide
        have hon1 : decide (((n + 1) / 50) % 2 = 1) = true := by
          rw [hd]
          have : (n / 50 + 1) % 2 = 1 := by omega
          rw [this]
          decide
        simp only [if_true, if_pos hge, hon, Bool.false_eq_true, if_false,
          hon1]
        congr 1
        · rw [he]
          norm_num
    
      · have hk : (n / 50) % 2 = 1 := hpar
        have hon : decide ((n / 50) % 2 = 1) = true := by
          rw [hk]
          decide
        have hon1 : decide (((n + 1) / 50) % 2 = 1) = false := by
          rw [hd]
          have : (n / 50 + 1) % 2 = 0 := by omega
          rw [this]
          decide
        simp only [if_true, if_pos hge, hon, if_false, hon1]
        congr 1
        · rw [he]
          norm_num

/-- C8: a freshly reset, enabled Blinker with `time_on = time_off = 0.5`,
advanced with the default 0.01 increments, reports a change on exactly every
50th advance (so exactly once per 50 consecutive advances), and an advance
reports a change exactly when it toggles `is_on`. -/
theorem blinker_timing (c_on c_off : Option RGB) (n : Nat) :
    ((blinkerSeq c_on c_off n).animate).1 = decide ((n + 1) % 50 = 0) ∧
    ((blinkerSeq c_on c_off n).animate).1 =
      decide ((blinkerSeq c_on c_off (n + 1)).is_on ≠
        (blinkerSeq c_on c_off n).is_on) := by
  have hf := blinkerSeq_formula c_on c_off n
  have hf1 := blinkerSeq_formula c_on c_off (n + 1)
  have hres : ((blinkerSeq c_on c_off n).animate).1 =
      decide ((n + 1) % 50 = 0) := by
    rw [hf]
    unfold LedBlinker.animate
    dsimp only
    by_cases hm : n % 50 = 49
    · have hge : ((n % 50 : Nat) : ℚ) / 100 + 1/100 ≥ 1/2 := by
        rw [hm]
        norm_num
      have h0 : (n + 1) % 50 = 0 := by omega
      rw [h0]
      repeat' split
      all_goals first
        | rfl
        | exact absurd hge (by assumption)
        | exact absurd rfl (by assumption)
    · have hb : n % 50 ≤ 48 := by omega
      have hlt : ¬ ((n % 50 : Nat) : ℚ) / 100 + 1/100 ≥ 1/2 := by
        have hle : ((n % 50 : Nat) : ℚ) ≤ 48 := by exact_mod_cast hb
        rw [ge_iff_le, div_add_div_same, le_div_iff₀ (by norm_num)]
        push_cast
        linarith
      have h0 : (n + 1) % 50 ≠ 0 := by omega
      rw [decide_eq_false h0]
      repeat' split
      all_goals first
        | rfl
        | exact absurd (by assumption) hlt
        | exact absurd rfl (by assumption)
  have hiso1 : (blinkerSeq c_on c_off (n + 1)).is_on =
      decide (((n + 1) / 50) % 2 = 1) := by rw [hf1]
  have hiso : (blinkerSeq c_on c_off n).is_on =
      decide ((n / 50) % 2 = 1) := by rw [hf]
  refine ⟨hres, ?_⟩
  rw [hres, hiso1, hiso]
  by_cases hm : n % 50 = 49
  · have hd : (n + 1) / 50 = n / 50 + 1 := by omega
    have h0 : (n + 1) % 50 = 0 := by omega
    rw [h0, hd]
    rcases Nat.mod_two_eq_zero_or_one (n / 50) with hp | hp
    · have h1 : (n / 50 + 1) % 2 = 1 := by omega
      rw [h1, hp]
      decide
    · have h1 : (n / 50 + 1) % 2 = 0 := by omega
      rw [h1, hp]
      decide
  · have hd : (n + 1) / 50 = n / 50 := by omega
    have h0 : (n + 1) % 50 ≠ 0 := by omega
    rw [hd]
    simp [h0]

/-! ### C9 — Choose hue wraparound -/

lemma hueIter_formula (n : Nat) :
    hueIter n = ((n % 101 : Nat) : ℚ) / 100 := by
  induction n with
  | zero => norm_num [hueIter]
  | succ n ih =>
    rw [hueIter, ih]
    unfold choose_hue_step
    dsimp only
    by_cases hm : n % 101 = 100
    · have hgt : ((n % 101 : Nat) : ℚ) / 100 + 1/100 > 1 := by
        rw [hm]
        norm_num
      have h1 : (n + 1) % 101 = 0 := by omega
      rw [if_pos hgt, h1]
      norm_num
    · have hb : n % 101 ≤ 99 := by omega
      have hle : ((n % 101 : Nat) : ℚ) ≤ 99 := by exact_mod_cast hb
      have hng : ¬ ((n % 101 : Nat) : ℚ) / 100 + 1/100 > 1 := by
        rw [gt_iff_lt, not_lt, div_add_div_same, div_le_one (by norm_num)]
        push_cast
        linarith
      have h1 : (n + 1) % 101 = n % 101 + 1 := by omega
      rw [if_neg hng, h1]
      push_cast
      ring

/-- C9: the Choose hue accumulator gains 0.01 per tick (the hue written
back by a successful `animate_choose` is exactly `choose_hue_step` of the
input); whenever the incremented value would exceed 1.0 it is reset to 0.0,
which lies in [0, 0.01); and over any number of ticks from the initial 0.0
the accumulator stays within [0, 1.0 + 0.01). -/
theorem choose_hue_wraparound (n : Nat) (s : LedsWS2801) (ch : Bool)
    (h : ℚ) (hw : h + 1/100 > 1) :
    choose_hue_step h = 0 ∧
    ((animate_choose s ch).map (fun r => r.1.hue_value) =
      (animate_choose s ch).map (fun _ => choose_hue_step s.hue_value)) ∧
    0 ≤ hueIter n ∧ hueIter n < 1 + 1/100 := by
  refine ⟨?_, ?_, ?_, ?_⟩
  · unfold choose_hue_step
    dsimp only
    rw [if_pos hw]
  · unfold animate_choose
    rcases hl : s.leds with _ | buf
    · rfl
    · dsimp only
      rcases hc : chooseFillLoop s.hue_value s.led_count 0 s.led_count.toNat
          buf [] with _ | out
      · rfl
      · obtain ⟨buf1, ops⟩ := out
        rfl
  · rw [hueIter_formula]
    positivity
  · rw [hueIter_formula]
    have hb : n % 101 ≤ 100 := by omega
    have hle : ((n % 101 : Nat) : ℚ) ≤ 100 := by exact_mod_cast hb
    rw [div_lt_iff₀ (by norm_num)]
    linarith

/-- A one-pixel Choose-phase controller used to witness C9. -/
def chooseWitState : LedsWS2801 :=
  { leds := some [(0, 0, 0)], led_count := 1, spi_index := 0,
    actual_state := some .CHOOSE }

/-- C9 witness: the hypotheses hold at `h = 1` (since 1 + 0.01 > 1), at a
concrete Choose state and at 250 ticks. -/
theorem choose_hue_wraparound_witness :
    choose_hue_step 1 = 0 ∧
    ((animate_choose chooseWitState false).map (fun r => r.1.hue_value) =
      (animate_choose chooseWitState false).map
        (fun _ => choose_hue_step chooseWitState.hue_value)) ∧
    0 ≤ hueIter 250 ∧ hueIter 250 < 1 + 1/100 :=
  choose_hue_wraparound 250 chooseWitState false 1 (by norm_num)

/-! ### C10 — disabled Blinker renders black -/

/-- C10: advancing a disabled Blinker returns `false` and changes nothing
(so it never forces a flush by itself), its color is `(0,0,0)`, and on a
Chosen-phase tick with a configured left button pixel and the left Blinker
disabled, the frame flushed to the hardware holds `(0,0,0)` at that pixel —
not the Chosen fill color. -/
theorem disabled_blinker_black (b : LedBlinker) (q : ℚ)
    (s : LedsWS2801) (buf : List RGB) (sv : RGB)
    (hb : b.enabled = false)
    (hrun : s.status = .running) (hq : s.state_queue = [])
    (ha : s.actual_state = some .CHOSEN) (hl : s.leds = some buf)
    (hblink : s.left_btn_blinker = b)
    (hleft : s.left_btn_led > -1)
    (hright : s.right_btn_led ≤ -1)
    (hget : stripGet buf s.left_btn_led = some sv) :
    b.animate q = (false, b) ∧
    b.get_color = some (0, 0, 0) ∧
    (∃ frame,
      (tick s).trace = s.trace ++
        [DevOp.fill (hsv ((s.capture_nbr : ℚ) / 4 + 1/2)),
         DevOp.set s.left_btn_led (0, 0, 0),
         DevOp.showBuf frame,
         DevOp.set s.left_btn_led (hsv ((s.capture_nbr : ℚ) / 4 + 1/2))] ∧
      stripGet frame s.left_btn_led = some (0, 0, 0)) := by
  have hanim : ∀ q' : ℚ, b.animate q' = (false, b) := by
    intro q'
    simp [LedBlinker.animate, hb]
  have hgc : b.get_color = some (0, 0, 0) := by
    simp [LedBlinker.get_color, hb]
  refine ⟨hanim q, hgc, ?_⟩
  have hpos : (0 : Int) ≤ s.left_btn_led := by omega
  have hbound : s.left_btn_led < (buf.length : Int) :=
    stripGet_some_bound _ _ _ hpos hget
  have hfilllen : (ledsFill buf (hsv ((s.capture_nbr : ℚ) / 4 + 1/2))).length
      = buf.length := by
    simp [ledsFill]
  have hfillget : stripGet (ledsFill buf (hsv ((s.capture_nbr : ℚ) / 4 + 1/2)))
      s.left_btn_led = some (hsv ((s.capture_nbr : ℚ) / 4 + 1/2)) :=
    stripGet_ledsFill _ _ _ hpos hbound
  have hset0 : stripSet (ledsFill buf (hsv ((s.capture_nbr : ℚ) / 4 + 1/2)))
      s.left_btn_led (0, 0, 0) =
      some ((ledsFill buf (hsv ((s.capture_nbr : ℚ) / 4 + 1/2))).set
        s.left_btn_led.toNat (0, 0, 0)) :=
    stripSet_some _ _ _ hpos (by rw [hfilllen]; exact hbound)
  have hframeget : stripGet ((ledsFill buf
      (hsv ((s.capture_nbr : ℚ) / 4 + 1/2))).set s.left_btn_led.toNat
        (0, 0, 0)) s.left_btn_led = some (0, 0, 0) :=
    stripGet_set_self _ _ _ _ hpos hset0
  have hset1len : ((ledsFill buf (hsv ((s.capture_nbr : ℚ) / 4 + 1/2))).set
      s.left_btn_led.toNat (0, 0, 0)).length = buf.length := by
    rw [List.length_set, hfilllen]
  have hset1 : stripSet ((ledsFill buf
      (hsv ((s.capture_nbr : ℚ) / 4 + 1/2))).set s.left_btn_led.toNat
        (0, 0, 0)) s.left_btn_led (hsv ((s.capture_nbr : ℚ) / 4 + 1/2)) =
      some (((ledsFill buf (hsv ((s.capture_nbr : ℚ) / 4 + 1/2))).set
        s.left_btn_led.toNat (0, 0, 0)).set s.left_btn_led.toNat
          (hsv ((s.capture_nbr : ℚ) / 4 + 1/2))) :=
    stripSet_some _ _ _ hpos (by rw [hset1len]; exact hbound)
  have hnr : ¬ s.right_btn_led > -1 := by omega
  refine ⟨(ledsFill buf (hsv ((s.capture_nbr : ℚ) / 4 + 1/2))).set
    s.left_btn_led.toNat (0, 0, 0), ?_, hframeget⟩
  simp at hfillget hset0 hset1
  simp [tick, pollQueue, hq, hrun, ha, dispatchAnim, animate_chosen, hl,
    buttonOverlay, overlayButton, hleft, hnr, hblink, hanim, hgc, hfillget,
    hset0, hset1]

/-- A Chosen-phase controller with a 2-pixel device, left button pixel 0 and
the (default, disabled) blinkers. -/
def chosenWitState : LedsWS2801 :=
  { state_queue := [], leds := some [(1, 1, 1), (2, 2, 2)], led_count := 2,
    spi_index := 0, actual_state := some .CHOSEN, left_btn_led := 0,
    right_btn_led := -1 }

/-- C10 witness: the default (disabled) blinker at a concrete Chosen-phase
controller. -/
theorem disabled_blinker_black_witness :
    ({} : LedBlinker).animate (1/100) = (false, {}) ∧
    ({} : LedBlinker).get_color = some (0, 0, 0) ∧
    (∃ frame,
      (tick chosenWitState).trace = chosenWitState.trace ++
        [DevOp.fill (hsv ((chosenWitState.capture_nbr : ℚ) / 4 + 1/2)),
         DevOp.set chosenWitState.left_btn_led (0, 0, 0),
         DevOp.showBuf frame,
         DevOp.set chosenWitState.left_btn_led
           (hsv ((chosenWitState.capture_nbr : ℚ) / 4 + 1/2))] ∧
      stripGet frame chosenWitState.left_btn_led = some (0, 0, 0)) :=
  disabled_blinker_black {} (1/100) chosenWitState [(1, 1, 1), (2, 2, 2)]
    (1, 1, 1) rfl rfl rfl rfl rfl rfl (by decide) (by decide) rfl

/-! ### C2 — button overlay restore -/

lemma overlayButton_spec (buf : List RGB) (idx : Int) (bl : LedBlinker)
    (ch : Bool) (obuf : List RGB) (osv : Option RGB) (ob : LedBlinker)
    (ochg : Bool) (oops : List DevOp)
    (h : overlayButton buf idx bl ch = some (obuf, osv, ob, ochg, oops)) :
    (idx > -1 → ∃ c sv, stripGet buf idx = some sv ∧ osv = some sv ∧
      stripSet buf idx c = some obuf) ∧
    (¬ idx > -1 → obuf = buf ∧ osv = none) := by
  unfold overlayButton at h
  dsimp only at h
  constructor
  · intro hidx
    rw [if_pos hidx] at h
    rcases hg : stripGet buf idx with _ | sv
    · rw [hg] at h
      exact Option.noConfusion h
    · rw [hg] at h
      dsimp only at h
      rcases hgc : ((if ch then bl.reset else bl).animate).2.get_color
          with _ | c
      · rw [hgc] at h
        exact Option.noConfusion h
      · rw [hgc] at h
        dsimp only at h
        rcases hset : stripSet buf idx c with _ | buf1
        · rw [hset] at h
          exact Option.noConfusion h
        · rw [hset] at h
          injection h with h1
          simp only [Prod.mk.injEq] at h1
          obtain ⟨hb, hs, -, -, -⟩ := h1
          refine ⟨c, sv, rfl, hs.symm, ?_⟩
          rw [hset, hb]
  · intro hidx
    rw [if_neg hidx] at h
    injection h with h1
    simp only [Prod.mk.injEq] at h1
    obtain ⟨hb, hs, -, -, -⟩ := h1
    exact ⟨hb.symm, hs.symm⟩

lemma buttonOverlay_restores (s1 : LedsWS2801) (ch dr : Bool)
    (bufA : List RGB) (hbufA : s1.leds = some bufA)
    (hnc : (buttonOverlay s1 ch dr).status ≠ .crashed) :
    (s1.left_btn_led > -1 → s1.right_btn_led ≠ s1.left_btn_led →
      (buttonOverlay s1 ch dr).leds.bind
          (fun b => stripGet b s1.left_btn_led) =
        stripGet bufA s1.left_btn_led) ∧
    (s1.right_btn_led > -1 → s1.left_btn_led ≠ s1.right_btn_led →
      (buttonOverlay s1 ch dr).leds.bind
          (fun b => stripGet b s1.right_btn_led) =
        stripGet bufA s1.right_btn_led) := by
  rcases ho1 : overlayButton bufA s1.left_btn_led s1.left_btn_blinker ch
      with _ | ⟨buf1, sv1, lb, lchg, lops⟩
  · have hcr : (buttonOverlay s1 ch dr).status = .crashed := by
      simp [buttonOverlay, hbufA, ho1]
    exact absurd hcr hnc
  · have hspec1 := overlayButton_spec _ _ _ _ _ _ _ _ _ ho1
    rcases ho2 : overlayButton buf1 s1.right_btn_led s1.right_btn_blinker ch
        with _ | ⟨buf2, sv2, rb, rchg, rops⟩
    · have hcr : (buttonOverlay s1 ch dr).status = .crashed := by
        simp [buttonOverlay, hbufA, ho1, ho2]
      exact absurd hcr hnc
    · have hspec2 := overlayButton_spec _ _ _ _ _ _ _ _ _ ho2
      by_cases hl : s1.left_btn_led > -1
      · have hlpos : (0 : Int) ≤ s1.left_btn_led := by omega
        obtain ⟨c1, svl, hgl, hsv1, hset1⟩ := hspec1.1 hl
        subst hsv1
        have hlen1 : buf1.length = bufA.length := stripSet_length _ _ _ _ hset1
        have hlbound : s1.left_btn_led < (bufA.length : Int) :=
          stripGet_some_bound _ _ _ hlpos hgl
        by_cases hr : s1.right_btn_led > -1
        · have hrpos : (0 : Int) ≤ s1.right_btn_led := by omega
          obtain ⟨c2, svr, hgr, hsv2, hset2⟩ := hspec2.1 hr
          subst hsv2
          have hlen2 : buf2.length = buf1.length :=
            stripSet_length _ _ _ _ hset2
          have hrbound : s1.right_btn_led < (buf1.length : Int) :=
            stripGet_some_bound _ _ _ hrpos hgr
          obtain ⟨buf3, hset3⟩ : ∃ b3, stripSet buf2 s1.left_btn_led svl =
              some b3 :=
            ⟨_, stripSet_some _ _ _ hlpos (by rw [hlen2, hlen1]; exact hlbound)⟩
          have hlen3 : buf3.length = buf2.length :=
            stripSet_length _ _ _ _ hset3
          obtain ⟨buf4, hset4⟩ : ∃ b4, stripSet buf3 s1.right_btn_led svr =
              some b4 :=
            ⟨_, stripSet_some _ _ _ hrpos (by rw [hlen3, hlen2]; exact hrbound)⟩
          have hleds : (buttonOverlay s1 ch dr).leds = some buf4 := by
            simp [buttonOverlay, hbufA, ho1, ho2, hset3, hset4]
          rw [hleds]
          constructor
          · intro _ hne
            show stripGet buf4 s1.left_btn_led = stripGet bufA s1.left_btn_led
            rw [stripGet_set_ne _ _ _ _ _ hrpos hlpos hne hset4]
            rw [stripGet_set_self _ _ _ _ hlpos hset3]
            exact hgl.symm
          · intro _ hne
            show stripGet buf4 s1.right_btn_led =
              stripGet bufA s1.right_btn_led
            rw [stripGet_set_self _ _ _ _ hrpos hset4]
            rw [← hgr]
            exact stripGet_set_ne _ _ _ _ _ hlpos hrpos hne hset1
        · obtain ⟨hbuf2, hsv2⟩ := hspec2.2 hr
          have hbuf2' := hbuf2.symm
          subst hbuf2'
          subst hsv2
          obtain ⟨buf3, hset3⟩ : ∃ b3, stripSet buf1 s1.left_btn_led svl =
              some b3 :=
            ⟨_, stripSet_some _ _ _ hlpos (by rw [hlen1]; exact hlbound)⟩
          have hleds : (buttonOverlay s1 ch dr).leds = some buf3 := by
            simp [buttonOverlay, hbufA, ho1, ho2, hset3]
          rw [hleds]
          constructor
          · intro _ _
            show stripGet buf3 s1.left_btn_led = stripGet bufA s1.left_btn_led
            rw [stripGet_set_self _ _ _ _ hlpos hset3]
            exact hgl.symm
          · intro hr' _
            exact absurd hr' hr
      · obtain ⟨hbuf1, hsv1⟩ := hspec1.2 hl
        have hbuf1' := hbuf1.symm
        subst hbuf1'
        subst hsv1
        by_cases hr : s1.right_btn_led > -1
        · have hrpos : (0 : Int) ≤ s1.right_btn_led := by omega
          obtain ⟨c2, svr, hgr, hsv2, hset2⟩ := hspec2.1 hr
          subst hsv2
          have hlen2 : buf2.length = bufA.length :=
            stripSet_length _ _ _ _ hset2
          have hrbound : s1.right_btn_led < (bufA.length : Int) :=
            stripGet_some_bound _ _ _ hrpos hgr
          obtain ⟨buf4, hset4⟩ : ∃ b4, stripSet buf2 s1.right_btn_led svr =
              some b4 :=
            ⟨_, stripSet_some _ _ _ hrpos (by rw [hlen2]; exact hrbound)⟩
          have hleds : (buttonOverlay s1 ch dr).leds = some buf4 := by
            simp [buttonOverlay, hbufA, ho1, ho2, hset4]
          rw [hleds]
          constructor
          · intro hl' _
            exact absurd hl' hl
          · intro _ _
            show stripGet buf4 s1.right_btn_led =
              stripGet bufA s1.right_btn_led
            rw [stripGet_set_self _ _ _ _ hrpos hset4]
            exact hgr.symm
        · obtain ⟨hbuf2, hsv2⟩ := hspec2.2 hr
          have hbuf2' := hbuf2.symm
          subst hbuf2'
          subst hsv2
          have hleds : (buttonOverlay s1 ch dr).leds = some bufA := by
            simp [buttonOverlay, hbufA, ho1, ho2]
          rw [hleds]
          constructor
          · intro hl' _
            exact absurd hl' hl
          · intro hr' _
            exact absurd hr' hr

/-- C2 (amended): on any tick that reaches the button overlay (device
present, phase neither Reconfigure nor Terminate, animation dispatch
succeeds) and does not crash, PROVIDED the two configured button pixels are
distinct, each configured button pixel reads back its pre-overlay animation
color (the value in the dispatched buffer) immediately after the tick: the
overlay color is written only for the flush and then restored. -/
theorem button_overlay_nondestructive (s0 s1 : LedsWS2801) (dr : Bool)
    (bufP bufA : List RGB)
    (hrun : s0.status = .running)
    (hR : (pollQueue s0).1.actual_state ≠ some .RECONFIGURE)
    (hT : (pollQueue s0).1.actual_state ≠ some .TERMINATE)
    (hL : (pollQueue s0).1.leds = some bufP)
    (hd : dispatchAnim (pollQueue s0).1 (pollQueue s0).2 = some (s1, dr))
    (hbufA : s1.leds = some bufA)
    (hrun2 : (tick s0).status = .running) :
    (s1.left_btn_led > -1 → s1.right_btn_led ≠ s1.left_btn_led →
      (tick s0).leds.bind (fun b => stripGet b s1.left_btn_led) =
        stripGet bufA s1.left_btn_led) ∧
    (s1.right_btn_led > -1 → s1.left_btn_led ≠ s1.right_btn_led →
      (tick s0).leds.bind (fun b => stripGet b s1.right_btn_led) =
        stripGet bufA s1.right_btn_led) := by
  have htick : tick s0 = buttonOverlay s1 (pollQueue s0).2 dr := by
    simp [tick, hrun, hR, hT, hL, hd]
  rw [htick] at hrun2 ⊢
  have hnc : (buttonOverlay s1 (pollQueue s0).2 dr).status ≠ .crashed := by
    rw [hrun2]
    decide
  exact buttonOverlay_restores s1 _ dr bufA hbufA hnc

/-- A concrete WAIT-phase state with a device of two pixels and distinct
button indices 0 and 1, used to witness `button_overlay_nondestructive`. -/
def buttonWitState : LedsWS2801 :=
  { state_queue := [], leds := some [(5, 5, 5), (6, 6, 6)], spi_index := 0,
    led_count := 2, left_btn_led := 0, right_btn_led := 1,
    actual_state := some .WAIT, delay := 0 }

theorem button_overlay_nondestructive_witness :
    ((0 : Int) > -1) ∧ ((1 : Int) ≠ (0 : Int)) ∧
    (tick buttonWitState).leds.bind (fun b => stripGet b 0) =
      stripGet [((5 : Int), (5 : Int), (5 : Int)), (6, 6, 6)] 0 := by
  refine ⟨by decide, by decide, ?_⟩
  exact (button_overlay_nondestructive buttonWitState
      { buttonWitState with delay := 1 } false
      [(5, 5, 5), (6, 6, 6)] [(5, 5, 5), (6, 6, 6)]
      rfl (by decide) (by decide) rfl rfl rfl rfl).1 (by decide) (by decide)

/-- A reachable state in which both configured button pixels are the SAME
index 0 (the plugin's default configuration is `left_btn_led = "0"` and
`right_btn_led = "0"`), the phase is WAIT, both blinkers are enabled and
currently on with different colors. -/
def aliasedButtonState : LedsWS2801 :=
  { state_queue := [], leds := some [(5, 5, 5), (6, 6, 6), (7, 7, 7)],
    spi_index := 0, led_count := 3, left_btn_led := 0, right_btn_led := 0,
    actual_state := some .WAIT, delay := 0,
    left_btn_blinker := { color_on := some (255, 255, 255),
                          color_off := some (0, 0, 0),
                          is_on := true, enabled := true },
    right_btn_blinker := { color_on := some (1, 2, 3),
                           color_off := some (0, 0, 0),
                           is_on := true, enabled := true } }

/-- C2 counterexample to the claim as stated: when the two configured button
pixels coincide (the default configuration!), the tick completes without any
error, the animation leaves pixel 0 at (5,5,5), yet after the tick pixel 0
holds the LEFT overlay color (255,255,255): the right-hand save captured the
left overlay instead of the animation value, so the restore does NOT bring
back the pre-overlay color. -/
theorem button_overlay_not_restored :
    (tick aliasedButtonState).status = .running ∧
    aliasedButtonState.right_btn_led = aliasedButtonState.left_btn_led ∧
    (dispatchAnim (pollQueue aliasedButtonState).1
        (pollQueue aliasedButtonState).2).bind
      (fun p => p.1.leds.bind fun b => stripGet b p.1.left_btn_led) =
      some (5, 5, 5) ∧
    (tick aliasedButtonState).leds.bind
      (fun b => stripGet b aliasedButtonState.left_btn_led) =
      some (255, 255, 255) := by
  refine ⟨?_, rfl, ?_, ?_⟩
  · norm_num +decide [tick, pollQueue, dispatchAnim, animate_wait,
      buttonOverlay, overlayButton, LedBlinker.animate, LedBlinker.get_color,
      stripGet, stripSet, aliasedButtonState]
  · norm_num +decide [pollQueue, dispatchAnim, animate_wait, stripGet,
      aliasedButtonState]
  · norm_num +decide [tick, pollQueue, dispatchAnim, animate_wait,
      buttonOverlay, overlayButton, LedBlinker.animate, LedBlinker.get_color,
      stripGet, stripSet, aliasedButtonState]
